import Mathlib

/-!
Shallow embedding of the prompt-library client (src/src/app.jsx).

The program is a single React component keeping a local list of "prompts"
mirrored from a per-user Firestore collection.  We embed:
  * the document and Prompt shapes and the snapshot-to-Prompt mapping
    (lines 108-115),
  * the JavaScript stable sort with the source's comparator
    (line 113: (a, b) => b.createdAt?.toMillis() - a.createdAt?.toMillis()),
  * the mutation handlers handleAddPrompt / handleDeletePrompt /
    handleUpdatePrompt (lines 128-177) as pure state transformers
    parameterised by the outcome of the awaited remote request,
  * the edit-overlay operations startEditing (179-182) and the Cancel
    button (line 247),
  * the subscription effect (96-125) and the render dispatch (185-205).

Machine integers: Firestore timestamps are modelled by their toMillis
value as an unbounded Int (no arithmetic overflow occurs in the source's
comparator at JS number scale for real dates).  A missing value
(JS undefined) is modelled by Option.none.
-/

/-- A Firestore document as seen by the subscriber: a store-assigned
document id plus the user data fields.  The source only ever writes the
fields text and createdAt, but a document may in general also carry a
data field literally named id (relevant for the spread in lines 109-112),
and any field may be absent. -/
structure FsDoc where
  docId : String
  dataText : Option String
  dataId : Option String
  dataCreatedAt : Option Int
deriving DecidableEq, Repr

/-- The Prompt shape held in the local prompts list. -/
structure Prompt where
  id : String
  text : Option String
  createdAt : Option Int
deriving DecidableEq, Repr

/-- Lines 109-112: doc => ({ id: doc.id, ...doc.data() }).  The spread of
the data object comes after the id property, so a data field named id
overrides the store-assigned document id. -/
def mkPrompt (d : FsDoc) : Prompt :=
  { id := d.dataId.getD d.docId
    text := d.dataText
    createdAt := d.dataCreatedAt }

/-- Line 113 comparator: (a, b) => b.createdAt?.toMillis() - a.createdAt?.toMillis().
Optional chaining yields undefined when createdAt is missing, and
subtraction with undefined yields NaN; none models that NaN. -/
def promptCmp (a b : Prompt) : Option Int :=
  match b.createdAt, a.createdAt with
  | some tb, some ta => some (tb - ta)
  | _, _ => none

/-- ECMAScript SortCompare: a comparator result that is NaN is treated
as +0. -/
def sortCompare {α : Type} (cmp : α → α → Option Int) (x y : α) : Int :=
  match cmp x y with
  | some v => v
  | none => 0

/-- Stable insertion of x into l: x goes before the first element it
compares ≤ 0 against (keeping x before elements that compare equal,
which is the stable order since x precedes l in the original list). -/
def jsInsert {α : Type} (cmp : α → α → Option Int) (x : α) : List α → List α
  | [] => [x]
  | y :: l => if sortCompare cmp x y ≤ 0 then x :: y :: l else y :: jsInsert cmp x l

/-- Model of Array.prototype.sort with a comparator.  Since ES2019 the
sort is required to be stable; with an inconsistent comparator (as arises
here when a createdAt is missing and the comparison is NaN, taken as 0)
the resulting order is implementation-defined, and we fix the canonical
stable insertion sort as the model. -/
def jsStableSort {α : Type} (cmp : α → α → Option Int) : List α → List α
  | [] => []
  | x :: l => jsInsert cmp x (jsStableSort cmp l)

/-- Deployment configuration: __app_id when defined (line 103). -/
structure Config where
  appId : Option String
deriving DecidableEq, Repr

/-- Line 103: typeof __app_id !== 'undefined' ? __app_id : 'default-app-id'. -/
def resolvedAppId (c : Config) : String :=
  c.appId.getD "default-app-id"

/-- Line 104: the collection path /artifacts/appId/users/userId/prompts. -/
def collectionPath (c : Config) (userId : String) : String :=
  "/artifacts/" ++ resolvedAppId c ++ "/users/" ++ userId ++ "/prompts"

/-- Lines 153 and 167: the document path for a single prompt. -/
def docPath (c : Config) (userId promptId : String) : String :=
  collectionPath c userId ++ "/" ++ promptId

/-- JavaScript String.prototype.trim: strip leading and trailing
whitespace.  Defined over the underlying character list so the kernel can
evaluate it on concrete strings. -/
def jsTrim (s : String) : String :=
  String.mk (((s.data.dropWhile Char.isWhitespace).reverse.dropWhile Char.isWhitespace).reverse)

/-- The component's local state (lines 35-46).  The auth and db handles
carry no data the core uses beyond their presence, so they are modelled
by hasDb; userId is none until onAuthStateChanged delivers a user.
editingPromptText is Option String because setEditingPromptText(prompt.text)
stores whatever the prompt's text field is, which can be undefined. -/
structure AppState where
  isLoading : Bool
  error : Option String
  hasDb : Bool
  userId : Option String
  prompts : List Prompt
  newPrompt : String
  isSubmitting : Bool
  editingPromptId : Option String
  editingPromptText : Option String
deriving DecidableEq, Repr

/-- Outcome of an awaited Firestore request (resolved or rejected). -/
inductive Outcome
  | success
  | failure
deriving DecidableEq, Repr

/-- The insert request issued by addDoc (lines 136-139): collection path
plus the document fields { text, createdAt: new Date() }. -/
structure InsertReq where
  path : String
  text : String
  createdAt : Int
deriving DecidableEq, Repr

/-- The field-level update issued by updateDoc (lines 168-170).  A none
field is absent from the update object and is left untouched by the
store; the source's update object is { text: editingPromptText }, so
newCreatedAt is always none there. -/
structure UpdateReq where
  path : String
  newText : Option String
  newCreatedAt : Option Int
deriving DecidableEq, Repr

/-- Firestore semantics of a field-level update applied to a document:
exactly the fields present in the update object are overwritten. -/
def applyUpdateFields (d : FsDoc) (u : UpdateReq) : FsDoc :=
  { d with
    dataText := match u.newText with
      | some t => some t
      | none => d.dataText
    dataCreatedAt := match u.newCreatedAt with
      | some t => some t
      | none => d.dataCreatedAt }

/-- handleAddPrompt (lines 128-147), as a pure transformer from the state
before the call and the outcome of the awaited addDoc to the state after
the handler finishes, together with the insert request issued (none when
the guard on line 130 returns early).  now is the value of new Date()
in milliseconds.  Guard: if (!newPrompt.trim() || !db || !userId) return.
On the issuing path, setIsSubmitting(true) runs before the await and
setIsSubmitting(false) in the finally block, so the final state has
isSubmitting = false; on success the buffer is cleared, on failure
setError("Failed to save prompt.") runs and the buffer is untouched. -/
def handleAddPrompt (c : Config) (now : Int) (s : AppState) (o : Outcome) :
    AppState × Option InsertReq :=
  match s.userId with
  | none => (s, none)
  | some uid =>
    if jsTrim s.newPrompt = "" ∨ s.hasDb = false then (s, none)
    else
      let req : InsertReq :=
        { path := collectionPath c uid, text := s.newPrompt, createdAt := now }
      match o with
      | .success => ({ s with newPrompt := "", isSubmitting := false }, some req)
      | .failure =>
        ({ s with error := some "Failed to save prompt.", isSubmitting := false }, some req)

/-- handleDeletePrompt (lines 149-159).  Guard: if (!db || !userId || !promptId)
return — promptId is a string, so the empty string is falsy and also
returns early.  The second component is the path of the issued deleteDoc
request, none when no request is issued. -/
def handleDeletePrompt (c : Config) (s : AppState) (promptId : String) (o : Outcome) :
    AppState × Option String :=
  match s.userId with
  | none => (s, none)
  | some uid =>
    if s.hasDb = false ∨ promptId = "" then (s, none)
    else
      match o with
      | .success => (s, some (docPath c uid promptId))
      | .failure =>
        ({ s with error := some "Failed to delete prompt." }, some (docPath c uid promptId))

/-- handleUpdatePrompt (lines 161-177).  Guard: if (!editingPromptText.trim()
|| !db || !userId || !editingPromptId) return.  When editingPromptText is
undefined (none) the .trim() call throws inside the async handler before
the try block, rejecting the promise with no state change and no request,
so that case is folded into the no-op branch.  On success both overlay
slots are cleared (editingPromptId := null, editingPromptText := '');
on failure setError("Failed to update prompt.") runs and the overlay is
untouched. -/
def handleUpdatePrompt (c : Config) (s : AppState) (o : Outcome) :
    AppState × Option UpdateReq :=
  match s.editingPromptText, s.userId, s.editingPromptId with
  | some draft, some uid, some pid =>
    if jsTrim draft = "" ∨ s.hasDb = false then (s, none)
    else
      let req : UpdateReq :=
        { path := docPath c uid pid, newText := some draft, newCreatedAt := none }
      match o with
      | .success => ({ s with editingPromptId := none, editingPromptText := some "" }, some req)
      | .failure => ({ s with error := some "Failed to update prompt." }, some req)
  | _, _, _ => (s, none)

/-- startEditing (lines 179-182): the single overlay slot is overwritten
with the clicked prompt's id and committed text. -/
def startEditing (s : AppState) (p : Prompt) : AppState :=
  { s with editingPromptId := some p.id, editingPromptText := p.text }

/-- Cancel button (line 247): onClick={() => setEditingPromptId(null)} —
only the id slot is reset; the draft text buffer is left as it is. -/
def cancelEditing (s : AppState) : AppState :=
  { s with editingPromptId := none }

/-- The body of the subscription effect before any snapshot (lines 97-106):
early return unless db and userId are set, otherwise setIsLoading(true)
and open the subscription. -/
def subscribeEffect (s : AppState) : AppState :=
  if s.hasDb = false ∨ s.userId = none then s else { s with isLoading := true }

/-- The collection path the subscription queries (lines 103-106), none
when the effect returns early. -/
def subscribeQueryPath (c : Config) (s : AppState) : Option String :=
  match s.userId with
  | none => none
  | some uid => if s.hasDb then some (collectionPath c uid) else none

/-- onSnapshot success callback (lines 108-115): map the snapshot's
documents to the Prompt shape, sort with the line-113 comparator, replace
the whole prompts list, and clear the loading flag. -/
def onSnapshotOk (s : AppState) (docs : List FsDoc) : AppState :=
  { s with
    prompts := jsStableSort promptCmp (docs.map mkPrompt)
    isLoading := false }

/-- onSnapshot error callback (lines 116-120). -/
def onSnapshotErr (s : AppState) : AppState :=
  { s with
    error := some "Failed to load prompts. Please check permissions and network."
    isLoading := false }

/-- An event delivered on the open subscription. -/
inductive SubEvent
  | snap (docs : List FsDoc)
  | subError
deriving Repr

/-- Dispatch one subscription event to its callback. -/
def subStep (s : AppState) : SubEvent → AppState
  | .snap docs => onSnapshotOk s docs
  | .subError => onSnapshotErr s

/-- Run a sequence of subscription events. -/
def runSub (s : AppState) (events : List SubEvent) : AppState :=
  events.foldl subStep s

/-- The three mutually exclusive top-level renders (lines 185-205): the
full-screen error view for any non-null error, the full-screen loader
while loading or without a user, and the interactive main view. -/
inductive View
  | errorView (msg : String)
  | loadingView
  | mainView
deriving DecidableEq, Repr

/-- Render dispatch: if (error) ... else if (isLoading || !userId) ... else
the main interface.  (The error strings the source stores are all
nonempty, so the JS truthiness test coincides with non-nullness.) -/
def render (s : AppState) : View :=
  match s.error with
  | some msg => .errorView msg
  | none => if s.isLoading ∨ s.userId = none then .loadingView else .mainView

/-- A prompt id is in edit mode when the overlay slot holds it. -/
def isEditing (s : AppState) (i : String) : Prop :=
  s.editingPromptId = some i

/-- Presented-order predicate: every element is, by createdAt, at least
as late as every element after it; pairs where either side lacks a
createdAt are unconstrained. -/
def promptLe (x y : Prompt) : Bool :=
  match x.createdAt, y.createdAt with
  | some tx, some ty => decide (ty ≤ tx)
  | _, _ => true

/-- Boolean pairwise sorted-descending-by-createdAt check. -/
def pairwiseDesc : List Prompt → Bool
  | [] => true
  | x :: l => l.all (promptLe x) && pairwiseDesc l

/-! ## Helper lemmas about the sort model -/

theorem jsInsert_perm {α : Type} (cmp : α → α → Option Int) (x : α) (l : List α) :
    (jsInsert cmp x l).Perm (x :: l) := by
  induction l with
  | nil => exact List.Perm.refl _
  | cons y l ih =>
    by_cases h : sortCompare cmp x y ≤ 0
    · simp only [jsInsert, if_pos h]
      exact List.Perm.refl _
    · simp only [jsInsert, if_neg h]
      exact (ih.cons y).trans (List.Perm.swap x y l)

theorem jsStableSort_perm {α : Type} (cmp : α → α → Option Int) (l : List α) :
    (jsStableSort cmp l).Perm l := by
  induction l with
  | nil => exact List.Perm.refl _
  | cons x l ih =>
    exact (jsInsert_perm cmp x (jsStableSort cmp l)).trans (ih.cons x)

theorem mem_jsInsert {α : Type} {cmp : α → α → Option Int} {x a : α} {l : List α} :
    a ∈ jsInsert cmp x l ↔ a = x ∨ a ∈ l := by
  rw [(jsInsert_perm cmp x l).mem_iff, List.mem_cons]

theorem promptLe_of_sortCompare {x y : Prompt} (hx : x.createdAt.isSome)
    (hy : y.createdAt.isSome) (h : sortCompare promptCmp x y ≤ 0) :
    promptLe x y = true := by
  obtain ⟨tx, hx⟩ := Option.isSome_iff_exists.mp hx
  obtain ⟨ty, hy⟩ := Option.isSome_iff_exists.mp hy
  simp [sortCompare, promptCmp, hx, hy] at h
  simp [promptLe, hx, hy]
  omega

theorem promptLe_rev_of_not_sortCompare {x y : Prompt} (hx : x.createdAt.isSome)
    (hy : y.createdAt.isSome) (h : ¬ sortCompare promptCmp x y ≤ 0) :
    promptLe y x = true := by
  obtain ⟨tx, hx⟩ := Option.isSome_iff_exists.mp hx
  obtain ⟨ty, hy⟩ := Option.isSome_iff_exists.mp hy
  simp [sortCompare, promptCmp, hx, hy] at h
  simp [promptLe, hx, hy]
  omega

theorem promptLe_trans {x y z : Prompt} (hy : y.createdAt.isSome)
    (h1 : promptLe x y = true) (h2 : promptLe y z = true) :
    promptLe x z = true := by
  obtain ⟨ty, hy⟩ := Option.isSome_iff_exists.mp hy
  cases hx : x.createdAt with
  | none => simp [promptLe, hx]
  | some tx =>
    cases hz : z.createdAt with
    | none => simp [promptLe, hx, hz]
    | some tz =>
      simp [promptLe, hx, hy] at h1
      simp [promptLe, hy, hz] at h2
      simp [promptLe, hx, hz]
      omega

theorem pairwiseDesc_jsInsert (x : Prompt) :
    ∀ l : List Prompt, x.createdAt.isSome → (∀ a ∈ l, a.createdAt.isSome) →
      pairwiseDesc l = true → pairwiseDesc (jsInsert promptCmp x l) = true := by
  intro l
  induction l with
  | nil => intro _ _ _; rfl
  | cons y l ih =>
    intro hx hl hs
    have hy : y.createdAt.isSome := hl y (List.mem_cons_self y l)
    have hl' : ∀ a ∈ l, a.createdAt.isSome := fun a ha => hl a (List.mem_cons_of_mem y ha)
    simp only [pairwiseDesc, Bool.and_eq_true, List.all_eq_true] at hs
    obtain ⟨hall, htail⟩ := hs
    by_cases h : sortCompare promptCmp x y ≤ 0
    · simp only [jsInsert, if_pos h, pairwiseDesc, Bool.and_eq_true, List.all_eq_true]
      have hxy := promptLe_of_sortCompare hx hy h
      refine ⟨?_, hall, htail⟩
      intro a ha
      rcases List.mem_cons.mp ha with rfl | ha'
      · exact hxy
      · exact promptLe_trans hy hxy (hall a ha')
    · simp only [jsInsert, if_neg h, pairwiseDesc, Bool.and_eq_true, List.all_eq_true]
      constructor
      · intro a ha
        rcases mem_jsInsert.mp ha with rfl | ha'
        · exact promptLe_rev_of_not_sortCompare hx hy h
        · exact hall a ha'
      · exact ih hx hl' htail

theorem pairwiseDesc_jsStableSort :
    ∀ l : List Prompt, (∀ a ∈ l, a.createdAt.isSome) →
      pairwiseDesc (jsStableSort promptCmp l) = true := by
  intro l
  induction l with
  | nil => intro _; rfl
  | cons x l ih =>
    intro hl
    have hx : x.createdAt.isSome := hl x (List.mem_cons_self x l)
    have hl' : ∀ a ∈ l, a.createdAt.isSome := fun a ha => hl a (List.mem_cons_of_mem x ha)
    have hmem : ∀ a ∈ jsStableSort promptCmp l, a.createdAt.isSome := fun a ha =>
      hl' a ((jsStableSort_perm promptCmp l).mem_iff.mp ha)
    exact pairwiseDesc_jsInsert x _ hx hmem (ih hl')

/-! ## Helper lemmas about the subscription -/

theorem subStep_isLoading (s : AppState) (e : SubEvent) : (subStep s e).isLoading = false := by
  cases e with
  | snap docs => rfl
  | subError => rfl

theorem runSub_cons_isLoading :
    ∀ (events : List SubEvent) (s : AppState) (e : SubEvent),
      (runSub s (e :: events)).isLoading = false := by
  intro events
  induction events with
  | nil => intro s e; exact subStep_isLoading s e
  | cons e2 rest ih => intro s e; exact ih (subStep s e) e2

/-! ## Concrete fixtures for witnesses and counterexamples -/

def cfg0 : Config := { appId := some "app1" }

def pA : Prompt := { id := "p1", text := some "hello", createdAt := some 5 }

def pB : Prompt := { id := "p2", text := some "world", createdAt := some 9 }

def baseState : AppState :=
  { isLoading := false
    error := none
    hasDb := true
    userId := some "u1"
    prompts := [pA]
    newPrompt := ""
    isSubmitting := false
    editingPromptId := none
    editingPromptText := some "" }

def sActive : AppState :=
  { baseState with
    prompts := [pB, pA]
    newPrompt := "New prompt"
    editingPromptId := some "p1"
    editingPromptText := some "Edited text" }

def altState : AppState :=
  { baseState with prompts := [] }

def dNoTime : FsDoc :=
  { docId := "a", dataText := some "ta", dataId := none, dataCreatedAt := none }

def dT1 : FsDoc :=
  { docId := "b", dataText := some "tb", dataId := none, dataCreatedAt := some 1 }

def dT2 : FsDoc :=
  { docId := "c", dataText := some "tc", dataId := none, dataCreatedAt := some 2 }

/-! ## Claims -/

/-- C1 counterexample: starting from an interactive state (render is the
main view), a failed delete does leave the prompts list unchanged and
stores the generic message, but the very next render takes the same
full-screen error branch (lines 185-194) used for the fatal categories,
so the interface does not remain interactive as the claim states. -/
theorem C1_counterexample :
    render baseState = View.mainView ∧
    (handleDeletePrompt cfg0 baseState "p1" Outcome.failure).1.prompts = baseState.prompts ∧
    (handleDeletePrompt cfg0 baseState "p1" Outcome.failure).1.error =
      some "Failed to delete prompt." ∧
    render (handleDeletePrompt cfg0 baseState "p1" Outcome.failure).1 =
      View.errorView "Failed to delete prompt." ∧
    render (handleDeletePrompt cfg0 baseState "p1" Outcome.failure).1 ≠ View.mainView := by
  decide

/-- C1 (amended): for every failed create, update or delete request the
prompts list is left unchanged and a generic message is stored, but the
presentation is then replaced by the single full-screen error view — the
same branch used for the fatal categories — rather than remaining
interactive. -/
theorem C1_mutation_failure (c : Config) (now : Int) (s : AppState)
    (uid pid draft : String)
    (hu : s.userId = some uid) (hdb : s.hasDb = true) (hpid : pid ≠ "")
    (hnew : jsTrim s.newPrompt ≠ "")
    (hdraft : s.editingPromptText = some draft) (hnb : jsTrim draft ≠ "")
    (heid : s.editingPromptId = some pid) :
    ((handleDeletePrompt c s pid Outcome.failure).1.prompts = s.prompts ∧
      render (handleDeletePrompt c s pid Outcome.failure).1 =
        View.errorView "Failed to delete prompt.") ∧
    ((handleAddPrompt c now s Outcome.failure).1.prompts = s.prompts ∧
      render (handleAddPrompt c now s Outcome.failure).1 =
        View.errorView "Failed to save prompt.") ∧
    ((handleUpdatePrompt c s Outcome.failure).1.prompts = s.prompts ∧
      render (handleUpdatePrompt c s Outcome.failure).1 =
        View.errorView "Failed to update prompt.") := by
  refine ⟨⟨?_, ?_⟩, ⟨?_, ?_⟩, ⟨?_, ?_⟩⟩ <;>
    simp [handleDeletePrompt, handleAddPrompt, handleUpdatePrompt, render,
      hu, hdb, hpid, hnew, hdraft, hnb, heid]

/-- C1 witness: the amended statement at a concrete interactive state. -/
theorem C1_mutation_failure_witness :
    ((handleDeletePrompt cfg0 sActive "p1" Outcome.failure).1.prompts = sActive.prompts ∧
      render (handleDeletePrompt cfg0 sActive "p1" Outcome.failure).1 =
        View.errorView "Failed to delete prompt.") ∧
    ((handleAddPrompt cfg0 3 sActive Outcome.failure).1.prompts = sActive.prompts ∧
      render (handleAddPrompt cfg0 3 sActive Outcome.failure).1 =
        View.errorView "Failed to save prompt.") ∧
    ((handleUpdatePrompt cfg0 sActive Outcome.failure).1.prompts = sActive.prompts ∧
      render (handleUpdatePrompt cfg0 sActive Outcome.failure).1 =
        View.errorView "Failed to update prompt.") :=
  C1_mutation_failure cfg0 3 sActive "u1" "p1" "Edited text"
    rfl rfl (by decide) (by decide) rfl (by decide) rfl

/-- C2 counterexample: a snapshot whose middle document lacks createdAt.
The mapped list is full-replaced as claimed, but the sort comparator
returns NaN (treated as 0) against the timestamp-less document, so the
stored order keeps the millis-1 document before the millis-2 document:
the presented list is not sorted by createdAt descending. -/
theorem C2_counterexample :
    (onSnapshotOk baseState [dT1, dNoTime, dT2]).prompts =
      [mkPrompt dT1, mkPrompt dNoTime, mkPrompt dT2] ∧
    pairwiseDesc (onSnapshotOk baseState [dT1, dNoTime, dT2]).prompts = false := by
  decide

/-- C2 (amended): every snapshot full-replaces the local list with a
permutation of the mapped documents, independently of the previous local
state, and clears the loading flag; the result is sorted by createdAt
descending whenever every document carries a createdAt value (when some
document lacks one, the NaN comparison makes the order unspecified, see
the counterexample). -/
theorem C2_snapshot_replace_sorted (s t : AppState) (docs : List FsDoc)
    (h : ∀ d ∈ docs, d.dataCreatedAt.isSome) :
    (onSnapshotOk s docs).prompts.Perm (docs.map mkPrompt) ∧
    pairwiseDesc (onSnapshotOk s docs).prompts = true ∧
    (onSnapshotOk s docs).prompts = (onSnapshotOk t docs).prompts ∧
    (onSnapshotOk s docs).isLoading = false := by
  refine ⟨jsStableSort_perm promptCmp (docs.map mkPrompt), ?_, rfl, rfl⟩
  apply pairwiseDesc_jsStableSort
  intro a ha
  obtain ⟨d, hd, rfl⟩ := List.mem_map.mp ha
  exact h d hd

/-- C2 witness: the amended statement at a concrete two-document
snapshot and two distinct prior states. -/
theorem C2_snapshot_replace_sorted_witness :
    (onSnapshotOk baseState [dT1, dT2]).prompts.Perm ([dT1, dT2].map mkPrompt) ∧
    pairwiseDesc (onSnapshotOk baseState [dT1, dT2]).prompts = true ∧
    (onSnapshotOk baseState [dT1, dT2]).prompts = (onSnapshotOk altState [dT1, dT2]).prompts ∧
    (onSnapshotOk baseState [dT1, dT2]).isLoading = false :=
  C2_snapshot_replace_sorted baseState altState [dT1, dT2] (by decide)

/-- C3: with an empty or whitespace-only input text, create and update
are complete no-ops: the returned state is the argument state unchanged
(input buffer, edit overlay, submitting flag, prompts list) and no
request is issued. -/
theorem C3_blank_noop (c : Config) (now : Int) (o : Outcome) (s t : AppState) (d : String)
    (hA : jsTrim s.newPrompt = "") (hT : t.editingPromptText = some d)
    (hTb : jsTrim d = "") :
    handleAddPrompt c now s o = (s, none) ∧ handleUpdatePrompt c t o = (t, none) := by
  constructor
  · unfold handleAddPrompt
    cases hu : s.userId with
    | none => rfl
    | some uid => simp [hA]
  · unfold handleUpdatePrompt
    rw [hT]
    cases hu : t.userId with
    | none => rfl
    | some uid =>
      cases he : t.editingPromptId with
      | none => rfl
      | some pid => simp [hTb]

def sBlank : AppState :=
  { baseState with
    newPrompt := "   "
    editingPromptId := some "p1"
    editingPromptText := some "  " }

/-- C3 witness: whitespace-only input buffer and draft at a concrete
state. -/
theorem C3_blank_noop_witness :
    handleAddPrompt cfg0 7 sBlank Outcome.success = (sBlank, none) ∧
    handleUpdatePrompt cfg0 sBlank Outcome.success = (sBlank, none) :=
  C3_blank_noop cfg0 7 Outcome.success sBlank sBlank "  " (by decide) rfl (by decide)

/-- C4: with non-blank text and identity/store established, a successful
create clears the input buffer while a failed create leaves the buffer
exactly as it was and stores the generic save-failure message; the
issued insert carries the buffer text and client timestamp. -/
theorem C4_create_buffer (c : Config) (now : Int) (s : AppState) (uid : String)
    (hu : s.userId = some uid) (hdb : s.hasDb = true)
    (hnb : jsTrim s.newPrompt ≠ "") :
    (handleAddPrompt c now s Outcome.success).1.newPrompt = "" ∧
    (handleAddPrompt c now s Outcome.failure).1.newPrompt = s.newPrompt ∧
    (handleAddPrompt c now s Outcome.failure).1.error = some "Failed to save prompt." ∧
    (handleAddPrompt c now s Outcome.success).2 =
      some { path := collectionPath c uid, text := s.newPrompt, createdAt := now } := by
  simp [handleAddPrompt, hu, hdb, hnb]

/-- C4 witness at a concrete active state. -/
theorem C4_create_buffer_witness :
    (handleAddPrompt cfg0 11 sActive Outcome.success).1.newPrompt = "" ∧
    (handleAddPrompt cfg0 11 sActive Outcome.failure).1.newPrompt = sActive.newPrompt ∧
    (handleAddPrompt cfg0 11 sActive Outcome.failure).1.error =
      some "Failed to save prompt." ∧
    (handleAddPrompt cfg0 11 sActive Outcome.success).2 =
      some { path := collectionPath cfg0 "u1", text := sActive.newPrompt, createdAt := 11 } :=
  C4_create_buffer cfg0 11 sActive "u1" rfl rfl (by decide)

/-- C5: an update issues a field-level write of text only (the update
object holds no createdAt), so applying it to any stored document leaves
the document's createdAt and id untouched and the Prompt mapped from the
subsequent snapshot carries the new text with the old createdAt. -/
theorem C5_update_text_only (c : Config) (s : AppState) (uid pid draft : String) (d : FsDoc)
    (hu : s.userId = some uid) (hdb : s.hasDb = true)
    (heid : s.editingPromptId = some pid)
    (hdraft : s.editingPromptText = some draft) (hnb : jsTrim draft ≠ "") :
    (handleUpdatePrompt c s Outcome.success).2 =
      some { path := docPath c uid pid, newText := some draft, newCreatedAt := none } ∧
    (mkPrompt (applyUpdateFields d
        { path := docPath c uid pid, newText := some draft, newCreatedAt := none })).text =
      some draft ∧
    (mkPrompt (applyUpdateFields d
        { path := docPath c uid pid, newText := some draft, newCreatedAt := none })).createdAt =
      (mkPrompt d).createdAt ∧
    (applyUpdateFields d
        { path := docPath c uid pid, newText := some draft, newCreatedAt := none }).docId =
      d.docId := by
  refine ⟨?_, rfl, rfl, rfl⟩
  simp [handleUpdatePrompt, hu, hdb, heid, hdraft, hnb]

/-- C5 witness at a concrete state and stored document. -/
theorem C5_update_text_only_witness :
    (handleUpdatePrompt cfg0 sActive Outcome.success).2 =
      some { path := docPath cfg0 "u1" "p1", newText := some "Edited text",
             newCreatedAt := none } ∧
    (mkPrompt (applyUpdateFields dT1
        { path := docPath cfg0 "u1" "p1", newText := some "Edited text",
          newCreatedAt := none })).text = some "Edited text" ∧
    (mkPrompt (applyUpdateFields dT1
        { path := docPath cfg0 "u1" "p1", newText := some "Edited text",
          newCreatedAt := none })).createdAt = (mkPrompt dT1).createdAt ∧
    (applyUpdateFields dT1
        { path := docPath cfg0 "u1" "p1", newText := some "Edited text",
          newCreatedAt := none }).docId = dT1.docId :=
  C5_update_text_only cfg0 sActive "u1" "p1" "Edited text" dT1 rfl rfl rfl rfl (by decide)

/-- C6: the edit overlay is a single slot, so two ids simultaneously in
edit mode are equal; starting an edit of p2 while p1 is being edited
overwrites the slot so that p2's id is the (sole) editing id and the
draft buffer is initialized from p2's committed text. -/
theorem C6_single_overlay (s t : AppState) (p1 p2 : Prompt) (i j : String)
    (hi : isEditing t i) (hj : isEditing t j) :
    i = j ∧
    (startEditing (startEditing s p1) p2).editingPromptId = some p2.id ∧
    (startEditing (startEditing s p1) p2).editingPromptText = p2.text := by
  refine ⟨?_, rfl, rfl⟩
  unfold isEditing at hi hj
  exact Option.some.inj (hi.symm.trans hj)

def sEditT : AppState := { baseState with editingPromptId := some "p1" }

/-- C6 witness at a concrete state editing p1 and then p2. -/
theorem C6_single_overlay_witness :
    ("p1" : String) = "p1" ∧
    (startEditing (startEditing baseState pA) pB).editingPromptId = some pB.id ∧
    (startEditing (startEditing baseState pA) pB).editingPromptText = pB.text :=
  C6_single_overlay baseState sEditT pA pB "p1" "p1" rfl rfl

/-- C7: once the store handle and identity are both available the
subscription effect raises the loading flag; the first snapshot — even an
empty one — clears it and installs the (empty) list, and every event
delivered after the first snapshot leaves the flag cleared. -/
theorem C7_loading_contract (s : AppState) (uid : String) (docs : List FsDoc)
    (events : List SubEvent)
    (hdb : s.hasDb = true) (hu : s.userId = some uid) :
    (subscribeEffect s).isLoading = true ∧
    (onSnapshotOk (subscribeEffect s) []).isLoading = false ∧
    (onSnapshotOk (subscribeEffect s) []).prompts = [] ∧
    (runSub (subscribeEffect s) (SubEvent.snap docs :: events)).isLoading = false := by
  refine ⟨?_, rfl, rfl, runSub_cons_isLoading events (subscribeEffect s) (SubEvent.snap docs)⟩
  simp [subscribeEffect, hdb, hu]

/-- C7 witness at a concrete state, with a later snapshot and a later
subscription error following the first snapshot. -/
theorem C7_loading_contract_witness :
    (subscribeEffect baseState).isLoading = true ∧
    (onSnapshotOk (subscribeEffect baseState) []).isLoading = false ∧
    (onSnapshotOk (subscribeEffect baseState) []).prompts = [] ∧
    (runSub (subscribeEffect baseState)
        (SubEvent.snap [dT1] :: [SubEvent.snap [dT1, dT2], SubEvent.subError])).isLoading =
      false :=
  C7_loading_contract baseState "u1" [dT1] [SubEvent.snap [dT1, dT2], SubEvent.subError]
    rfl rfl

/-- C8: the subscription and all three mutations address the
deterministically derived path artifacts/appId/users/userId/prompts
(with the document id appended for delete and update), and a missing
deployment identifier resolves to the fixed fallback default-app-id. -/
theorem C8_path_addressing (c : Config) (now : Int) (s : AppState) (uid pid draft : String)
    (hu : s.userId = some uid) (hdb : s.hasDb = true) (hpid : pid ≠ "")
    (hnew : jsTrim s.newPrompt ≠ "")
    (hdraft : s.editingPromptText = some draft) (hnb : jsTrim draft ≠ "")
    (heid : s.editingPromptId = some pid) :
    subscribeQueryPath c s =
      some ("/artifacts/" ++ resolvedAppId c ++ "/users/" ++ uid ++ "/prompts") ∧
    (handleAddPrompt c now s Outcome.success).2.map InsertReq.path =
      some (collectionPath c uid) ∧
    (handleDeletePrompt c s pid Outcome.success).2 =
      some (collectionPath c uid ++ "/" ++ pid) ∧
    (handleUpdatePrompt c s Outcome.success).2.map UpdateReq.path =
      some (collectionPath c uid ++ "/" ++ pid) ∧
    resolvedAppId { appId := none } = "default-app-id" := by
  refine ⟨?_, ?_, ?_, ?_, rfl⟩ <;>
    simp [subscribeQueryPath, handleAddPrompt, handleDeletePrompt, handleUpdatePrompt,
      collectionPath, docPath, hu, hdb, hpid, hnew, hdraft, hnb, heid]

def cfgNone : Config := { appId := none }

/-- C8 witness with the deployment identifier absent, exercising the
default-app-id fallback in every derived path. -/
theorem C8_path_addressing_witness :
    subscribeQueryPath cfgNone sActive =
      some ("/artifacts/" ++ resolvedAppId cfgNone ++ "/users/" ++ "u1" ++ "/prompts") ∧
    (handleAddPrompt cfgNone 0 sActive Outcome.success).2.map InsertReq.path =
      some (collectionPath cfgNone "u1") ∧
    (handleDeletePrompt cfgNone sActive "p1" Outcome.success).2 =
      some (collectionPath cfgNone "u1" ++ "/" ++ "p1") ∧
    (handleUpdatePrompt cfgNone sActive Outcome.success).2.map UpdateReq.path =
      some (collectionPath cfgNone "u1" ++ "/" ++ "p1") ∧
    resolvedAppId { appId := none } = "default-app-id" :=
  C8_path_addressing cfgNone 0 sActive "u1" "p1" "Edited text"
    rfl rfl (by decide) (by decide) rfl (by decide) rfl

/-- C9: the snapshot mapping spreads the document data after the id
property, so a data field literally named id overrides the store-assigned
document id (and only documents without such a field keep it). -/
theorem C9_spread_id_override (d e : FsDoc) (v : String)
    (hd : d.dataId = some v) (he : e.dataId = none) :
    (mkPrompt d).id = v ∧ (mkPrompt e).id = e.docId := by
  simp [mkPrompt, hd, he]

def dOverride : FsDoc :=
  { docId := "doc1", dataText := some "x", dataId := some "evil", dataCreatedAt := some 0 }

/-- C9 witness: a concrete document whose data carries id "evil". -/
theorem C9_spread_id_override_witness :
    (mkPrompt dOverride).id = "evil" ∧ (mkPrompt dT1).id = dT1.docId :=
  C9_spread_id_override dOverride dT1 "evil" rfl rfl

/-- C10: cancelling an edit resets only the editing id and leaves the
draft buffer (and the rest of the state) untouched, a successful update
clears both the editing id and the draft buffer, and startEditing
replaces the draft with the clicked prompt's committed text. -/
theorem C10_cancel_vs_save (c : Config) (s : AppState) (uid pid draft : String) (p : Prompt)
    (hu : s.userId = some uid) (hdb : s.hasDb = true)
    (heid : s.editingPromptId = some pid)
    (hdraft : s.editingPromptText = some draft) (hnb : jsTrim draft ≠ "") :
    (cancelEditing s).editingPromptId = none ∧
    (cancelEditing s).editingPromptText = s.editingPromptText ∧
    (cancelEditing s).prompts = s.prompts ∧
    (cancelEditing s).newPrompt = s.newPrompt ∧
    (handleUpdatePrompt c s Outcome.success).1.editingPromptId = none ∧
    (handleUpdatePrompt c s Outcome.success).1.editingPromptText = some "" ∧
    (startEditing s p).editingPromptText = p.text := by
  refine ⟨rfl, rfl, rfl, rfl, ?_, ?_, rfl⟩ <;>
    simp [handleUpdatePrompt, hu, hdb, heid, hdraft, hnb]

/-- C10 witness at a concrete editing state. -/
theorem C10_cancel_vs_save_witness :
    (cancelEditing sActive).editingPromptId = none ∧
    (cancelEditing sActive).editingPromptText = sActive.editingPromptText ∧
    (cancelEditing sActive).prompts = sActive.prompts ∧
    (cancelEditing sActive).newPrompt = sActive.newPrompt ∧
    (handleUpdatePrompt cfg0 sActive Outcome.success).1.editingPromptId = none ∧
    (handleUpdatePrompt cfg0 sActive Outcome.success).1.editingPromptText = some "" ∧
    (startEditing sActive pB).editingPromptText = pB.text :=
  C10_cancel_vs_save cfg0 sActive "u1" "p1" "Edited text" pB rfl rfl rfl rfl (by decide)
